import Mathlib

/-!
Shallow embedding of the `ai-cli` provider layer (Go) in Lean 4.

The repository dispatches text/image prompts to one of three AI completion
APIs (OpenAI, DeepSeek, Mistral).  Each provider builds one JSON payload,
issues HTTP requests through an injected transport, and parses a JSON
response.  We embed:

* the shared data model (`Feature`, `FileInput`, `Inputs`, `Config`, `Model`)
  from `internal/providers/provider.go`;
* a generic JSON value type standing for Go's `encoding/json` values, with
  decoders mirroring `json.Unmarshal` into the concrete Go structs used by
  the code (absent fields become Go zero values, type mismatches fail);
* each provider's `Generate` / response handling, with the HTTP transport
  modelled as a function from the 1-based attempt index to an outcome, and
  the observable effects (requests issued, sleeps, debug lines) collected in
  a `GenOutcome` record;
* the CLI output formatting from `cmd/generate.go` and the `models`
  command loop.

Real time (timeout enforcement, elapsed-time strings, the actual duration
of `time.Sleep`) is outside the embedding; sleeps are recorded as the
requested number of seconds.
-/

/-- Bytes of a file plus its name (`providers.FileInput`). Bytes are `Nat`s
(values < 256 in practice; base64 reduces mod 256). -/
structure FileInput where
  data : List Nat
  filename : String
deriving Repr, DecidableEq

/-- Go `providers.Inputs`: a prompt plus ordered image attachments. -/
structure Inputs where
  prompt : String
  images : List FileInput
deriving Repr, DecidableEq

/-- Go `providers.Feature` enumeration. -/
inductive Feature where
  | TextGeneration
  | Vision
  | MultiModal
deriving Repr, DecidableEq

/-- Go `providers.Config`.  The `debug` field is the `Debug bool` member used
by the feature-complete revision (`cmd/generate.go` sets it, the Mistral
provider reads it). `timeout` is in seconds, `0` meaning unset, as in Go. -/
structure Config where
  apiKey : String
  timeout : Int
  model : String
  debug : Bool
deriving Repr, DecidableEq

/-- Go `providers.Model`: normalized model descriptor. -/
structure Model where
  id : String
  description : String
  contextWindow : Int
  supportsVision : Bool
deriving Repr, DecidableEq

/-- Generic JSON value, standing in for the byte-level JSON bodies that the
Go code marshals and unmarshals.  Numbers are integers (all numbers used by
the code are integral). -/
inductive JSON where
  | null
  | bool (b : Bool)
  | num (n : Int)
  | str (s : String)
  | arr (elems : List JSON)
  | obj (fields : List (String × JSON))

/-- Outcome of one HTTP round trip, as observed by the provider code:
`client.Do` fails (`netError`), the response body fails to read
(`readError`), or a status plus decoded body arrives (`ok`). -/
inductive HTTPOutcome where
  | netError (msg : String)
  | readError (status : Nat) (msg : String)
  | ok (status : Nat) (body : JSON)

/-- The distinct error returns of the provider code, one constructor per
`fmt.Errorf` site that a claim can observe.  `apiError` is the non-200
branch where the provider-specific error envelope decoded to a non-empty
message; `apiErrorRaw` is the fallback that embeds the raw body. -/
inductive GenError where
  | capability (msg : String)
  | apiRequestFailed (msg : String)
  | readBody (msg : String)
  | apiError (status : Nat) (msg : String)
  | apiErrorRaw (status : Nat) (body : JSON)
  | parseFailed
  | emptyResult

/-- One debug trace line printed by the Mistral provider.  Elapsed-time
strings are real time and are not modelled as text; the line structure and
all logged values other than durations are kept. -/
inductive DebugLine where
  | sending (attempt : Nat) (url modelName maskedKey : String)
  | attemptFailed (attempt : Nat) (msg : String)
  | response (attempt : Nat) (status : Nat) (body : JSON)
  | success

/-- Observable behaviour of one `Generate` call: its result, the bodies of
the HTTP requests actually issued (in order), the `time.Sleep` durations
requested (seconds), and the debug lines printed. -/
structure GenOutcome where
  result : Except GenError String
  requestsSent : List JSON
  sleeps : List Nat
  debugLog : List DebugLine

/-- Association-list field lookup used by the JSON decoders. -/
def jsonLookup (key : String) : List (String × JSON) → Option JSON
  | [] => none
  | (k, v) :: rest => if k = key then some v else jsonLookup key rest

/-- Go `json.Unmarshal` of a JSON value into a Go `string` field: strings
decode, `null` leaves the zero value `""`, anything else is a type error. -/
def decodeStringField : JSON → Except Unit String
  | .str s => .ok s
  | .null => .ok ""
  | _ => .error ()

/-- Go `json.Unmarshal` into `struct { Message struct { Content string } }`
(one element of the `choices` array): returns the content string. Absent
fields give Go zero values. -/
def decodeChoice : JSON → Except Unit String
  | .obj fields =>
      match jsonLookup "message" fields with
      | some (.obj mfields) =>
          match jsonLookup "content" mfields with
          | some v => decodeStringField v
          | none => .ok ""
      | some .null => .ok ""
      | some _ => .error ()
      | none => .ok ""
  | .null => .ok ""
  | _ => .error ()

/-- Go `json.Unmarshal` of a 200 body into the anonymous
`struct { Choices []struct{ Message struct{ Content string } } }` shared by
all three providers: returns the list of choice contents. -/
def decodeChoices : JSON → Except Unit (List String)
  | .obj fields =>
      match jsonLookup "choices" fields with
      | some (.arr xs) => xs.mapM decodeChoice
      | some .null => .ok []
      | some _ => .error ()
      | none => .ok []
  | .null => .ok []
  | _ => .error ()

/-- Go `json.Unmarshal` into `struct { Message string }` — the
`deepseekError` / `mistralError` envelope.  `none` means unmarshal error. -/
def decodeMessageEnvelope : JSON → Option String
  | .obj fields =>
      match jsonLookup "message" fields with
      | some (.str s) => some s
      | some .null => some ""
      | some _ => none
      | none => some ""
  | .null => some ""
  | _ => none

/-- Go `json.Unmarshal` into `openAIError` (`{error:{message}}`). -/
def decodeOpenAIError : JSON → Option String
  | .obj fields =>
      match jsonLookup "error" fields with
      | some inner => decodeMessageEnvelope inner
      | none => some ""
  | .null => some ""
  | _ => none

/-- The base64 alphabet of RFC 4648 used by Go's `base64.StdEncoding`. -/
def base64Table : List Char :=
  ("ABCDEFGHIJKLMNOPQRSTUVWXYZabcdefghijklmnopqrstuvwxyz0123456789+/").toList

/-- Character for a 6-bit group. -/
def b64char (n : Nat) : Char := base64Table.getD n 'A'

/-- Standard base64 encoding of a byte list (`base64.StdEncoding.EncodeToString`). -/
def base64EncodeList : List Nat → List Char
  | b1 :: b2 :: b3 :: rest =>
      let n := (b1 % 256) * 65536 + (b2 % 256) * 256 + (b3 % 256)
      b64char (n / 262144 % 64) :: b64char (n / 4096 % 64) ::
        b64char (n / 64 % 64) :: b64char (n % 64) :: base64EncodeList rest
  | [b1, b2] =>
      let n := (b1 % 256) * 65536 + (b2 % 256) * 256
      [b64char (n / 262144 % 64), b64char (n / 4096 % 64), b64char (n / 64 % 64), '=']
  | [b1] =>
      let n := (b1 % 256) * 65536
      [b64char (n / 262144 % 64), b64char (n / 4096 % 64), '=', '=']
  | [] => []

/-- String form of the base64 encoding. -/
def base64Encode (bytes : List Nat) : String := String.mk (base64EncodeList bytes)

/-- Go `strings.Contains`: `sub` occurs as a contiguous substring of `s`. -/
def goContains (s sub : String) : Bool := decide (sub.toList <:+: s.toList)

/-- Go `filepath.Ext`: scans the path from the end; processes the REVERSED
character list, accumulating the scanned suffix in original order. -/
def extScan : List Char → List Char → String
  | [], _ => ""
  | c :: rest, acc =>
      if c = '/' then ""
      else if c = '.' then String.mk ('.' :: acc)
      else extScan rest (c :: acc)

/-- Go `filepath.Ext filename`. -/
def filepathExt (filename : String) : String := extScan filename.toList.reverse []

/-- Go `getMimeType` from `openai.go`: mime type from the filename extension,
defaulting to jpeg. -/
def getMimeType (filename : String) : String :=
  let ext := filepathExt filename
  if ext = ".png" then "png"
  else if ext = ".jpg" ∨ ext = ".jpeg" then "jpeg"
  else if ext = ".gif" then "gif"
  else "jpeg"

def openAIBaseURL : String := "https://api.openai.com/v1"

def openAIDefaultTextModel : String := "gpt-4"

/-- The fixed vision-capable model used by every OpenAI vision request. -/
def openAIVisionModel : String := "gpt-4o-mini"

def deepseekBaseURL : String := "https://api.deepseek.com/v1"

def deepseekDefaultModel : String := "deepseek-chat"

def mistralBaseURL : String := "https://api.mistral.ai/v1"

def mistralDefaultModel : String := "mistral-small-latest"

/-- Go `mistralMaxRetries` constant. -/
def mistralMaxRetries : Nat := 2

/-- Go `mistralRetryDelay` (1 second), recorded when the retry loop sleeps. -/
def mistralRetryDelaySeconds : Nat := 1

/-- Go `OpenAI.Supports`: true for all three features. -/
def OpenAI.Supports (feature : Feature) : Bool :=
  match feature with
  | .TextGeneration | .Vision | .MultiModal => true

/-- Go `DeepSeek.Supports`: text generation only. -/
def DeepSeek.Supports (feature : Feature) : Bool :=
  decide (feature = Feature.TextGeneration)

/-- Go `Mistral.Supports`: text generation only. -/
def Mistral.Supports (feature : Feature) : Bool :=
  decide (feature = Feature.TextGeneration)

def OpenAI.getModel (cfg : Config) : String :=
  if cfg.model ≠ "" then cfg.model else openAIDefaultTextModel

def DeepSeek.getModel (cfg : Config) : String :=
  if cfg.model ≠ "" then cfg.model else deepseekDefaultModel

def Mistral.getModel (cfg : Config) : String :=
  if cfg.model ≠ "" then cfg.model else mistralDefaultModel

/-- The chat-completion payload shared by all three providers:
`{model, messages:[{role:"user", content}], max_tokens:1000}`. -/
def chatPayload (modelName : String) (content : JSON) : JSON :=
  .obj [("model", .str modelName),
        ("messages", .arr [.obj [("role", .str "user"), ("content", content)]]),
        ("max_tokens", .num 1000)]

/-- Text block of the vision content list. -/
def textBlock (prompt : String) : JSON :=
  .obj [("type", .str "text"), ("text", .str prompt)]

/-- Image block of the vision content list, with a
`data:image/<mime>;base64,<payload>` URL. -/
def imageBlock (img : FileInput) : JSON :=
  .obj [("type", .str "image_url"),
        ("image_url", .obj [("url",
          .str ("data:image/" ++ getMimeType img.filename ++ ";base64," ++
            base64Encode img.data))])]

/-- The content list built by `handleVisionRequest`: starts with the text
block and appends one image block per attachment (Go's `append` loop). -/
def visionContent (inputs : Inputs) : List JSON :=
  inputs.images.foldl (fun acc img => acc ++ [imageBlock img]) [textBlock inputs.prompt]

/-- The vision request payload: always uses `openAIVisionModel`
(independent of any configured model). -/
def OpenAI.visionPayload (inputs : Inputs) : JSON :=
  chatPayload openAIVisionModel (.arr (visionContent inputs))

/-- One HTTP POST plus the response handling shared by the OpenAI
`makeRequest` and the DeepSeek `handleTextRequest` tail: non-200 tries the
provider error envelope (`decodeEnv`) then falls back to the raw body; 200
decodes `choices` and takes the first content, zero choices is an error. -/
def singleRequest (decodeEnv : JSON → Option String) (payload : JSON)
    (tr : Nat → HTTPOutcome) : GenOutcome :=
  match tr 1 with
  | .netError msg => ⟨.error (.apiRequestFailed msg), [payload], [], []⟩
  | .readError _ msg => ⟨.error (.readBody msg), [payload], [], []⟩
  | .ok status body =>
      if status ≠ 200 then
        match decodeEnv body with
        | some m =>
            if m ≠ "" then ⟨.error (.apiError status m), [payload], [], []⟩
            else ⟨.error (.apiErrorRaw status body), [payload], [], []⟩
        | none => ⟨.error (.apiErrorRaw status body), [payload], [], []⟩
      else
        match decodeChoices body with
        | .error _ => ⟨.error .parseFailed, [payload], [], []⟩
        | .ok [] => ⟨.error .emptyResult, [payload], [], []⟩
        | .ok (c :: _) => ⟨.ok c, [payload], [], []⟩

/-- Go `OpenAI.Generate`: routes to the vision payload whenever images are
present, otherwise the text payload. -/
def OpenAI.Generate (cfg : Config) (tr : Nat → HTTPOutcome) (inputs : Inputs) : GenOutcome :=
  if inputs.images.length > 0 then
    singleRequest decodeOpenAIError (OpenAI.visionPayload inputs) tr
  else
    singleRequest decodeOpenAIError (chatPayload (OpenAI.getModel cfg) (.str inputs.prompt)) tr

/-- Go `DeepSeek.Generate`: fails fast on images, before building any request. -/
def DeepSeek.Generate (cfg : Config) (tr : Nat → HTTPOutcome) (inputs : Inputs) : GenOutcome :=
  if inputs.images.length > 0 then
    ⟨.error (.capability "DeepSeek does not support image analysis"), [], [], []⟩
  else
    singleRequest decodeMessageEnvelope
      (chatPayload (DeepSeek.getModel cfg) (.str inputs.prompt)) tr

/-- Go `maskAPIKey` from the Mistral provider. -/
def maskAPIKey (key : String) : String :=
  if key.length < 8 then "****"
  else String.mk (key.toList.take 4 ++ ("...").toList ++ key.toList.drop (key.length - 4))

/-- The text of the per-attempt debug line
`[DEBUG] Attempt %d: Sending request to Mistral: URL=%s, Model=%s, APIKey=%s\n`. -/
def sendingLineText (attempt : Nat) (url modelName maskedKey : String) : String :=
  "[DEBUG] Attempt " ++ toString attempt ++ ": Sending request to Mistral: URL=" ++
    url ++ ", Model=" ++ modelName ++ ", APIKey=" ++ maskedKey ++ "\n"

/-- The body of Mistral's `for attempt := 1; attempt <= mistralMaxRetries`
loop.  `fuel` only bounds the recursion (the loop itself terminates via the
`attempt < mistralMaxRetries` test, exactly as in the source); when fuel
runs out the post-loop `return "", lastErr` is taken.  A network-level
failure retries (recording one sleep) iff `attempt < mistralMaxRetries`;
everything else is terminal. -/
def Mistral.attemptLoop (cfg : Config) (tr : Nat → HTTPOutcome) (payload : JSON) :
    Nat → Nat → Option GenError → GenOutcome
  | 0, _, lastErr =>
      match lastErr with
      | some e => ⟨.error e, [], [], []⟩
      | none => ⟨.ok "", [], [], []⟩
  | fuel + 1, attempt, _lastErr =>
      let sendLog := if cfg.debug then
          [DebugLine.sending attempt (mistralBaseURL ++ "/chat/completions")
            (Mistral.getModel cfg) (maskAPIKey cfg.apiKey)]
        else []
      match tr attempt with
      | .netError msg =>
          let failLog := if cfg.debug then [DebugLine.attemptFailed attempt msg] else []
          if attempt < mistralMaxRetries then
            let rest := Mistral.attemptLoop cfg tr payload fuel (attempt + 1)
              (some (.apiRequestFailed msg))
            ⟨rest.result, payload :: rest.requestsSent,
              mistralRetryDelaySeconds :: rest.sleeps, sendLog ++ failLog ++ rest.debugLog⟩
          else
            ⟨.error (.apiRequestFailed msg), [payload], [], sendLog ++ failLog⟩
      | .readError _ msg => ⟨.error (.readBody msg), [payload], [], sendLog⟩
      | .ok status body =>
          let respLog := if cfg.debug then [DebugLine.response attempt status body] else []
          if status ≠ 200 then
            match decodeMessageEnvelope body with
            | some m =>
                if m ≠ "" then ⟨.error (.apiError status m), [payload], [], sendLog ++ respLog⟩
                else ⟨.error (.apiErrorRaw status body), [payload], [], sendLog ++ respLog⟩
            | none => ⟨.error (.apiErrorRaw status body), [payload], [], sendLog ++ respLog⟩
          else
            match decodeChoices body with
            | .error _ => ⟨.error .parseFailed, [payload], [], sendLog ++ respLog⟩
            | .ok [] => ⟨.error .emptyResult, [payload], [], sendLog ++ respLog⟩
            | .ok (c :: _) =>
                ⟨.ok c, [payload], [],
                  sendLog ++ respLog ++ (if cfg.debug then [DebugLine.success] else [])⟩

/-- Go `Mistral.handleTextRequest`: marshal once, then run the retry loop from
attempt 1. -/
def Mistral.handleTextRequest (cfg : Config) (tr : Nat → HTTPOutcome) (prompt : String) :
    GenOutcome :=
  Mistral.attemptLoop cfg tr (chatPayload (Mistral.getModel cfg) (.str prompt))
    mistralMaxRetries 1 none

/-- Go `Mistral.Generate`: fails fast on images, before building any request. -/
def Mistral.Generate (cfg : Config) (tr : Nat → HTTPOutcome) (inputs : Inputs) : GenOutcome :=
  if inputs.images.length > 0 then
    ⟨.error (.capability "Mistral does not support image analysis"), [], [], []⟩
  else
    Mistral.handleTextRequest cfg tr inputs.prompt

/-- The timeout field of an `http.Client`, in seconds. -/
structure HTTPClient where
  timeoutSeconds : Int
deriving Repr, DecidableEq

/-- A constructed provider: its (possibly adjusted) config and HTTP client. -/
structure ProviderState where
  config : Config
  client : HTTPClient
deriving Repr, DecidableEq

/-- Go `int(openAIDefaultTimeout.Seconds())` = 30. -/
def openAIDefaultTimeoutSeconds : Int := 30

def deepseekDefaultTimeoutSeconds : Int := 30

def mistralDefaultTimeoutSeconds : Int := 30

/-- Go `NewOpenAI`: defaults `config.Timeout` when zero, but the HTTP client is
always built with `openAIDefaultTimeout`. -/
def NewOpenAI (config : Config) : ProviderState :=
  let config := if config.timeout = 0 then
      { config with timeout := openAIDefaultTimeoutSeconds } else config
  { config := config, client := { timeoutSeconds := openAIDefaultTimeoutSeconds } }

/-- Go `NewDeepSeek`: same shape as `NewOpenAI`. -/
def NewDeepSeek (config : Config) : ProviderState :=
  let config := if config.timeout = 0 then
      { config with timeout := deepseekDefaultTimeoutSeconds } else config
  { config := config, client := { timeoutSeconds := deepseekDefaultTimeoutSeconds } }

/-- Go `NewMistral`: the client uses the configured timeout only when
`0 < Timeout ≤ 30`, otherwise the default. -/
def NewMistral (config : Config) : ProviderState :=
  let timeout := if 0 < config.timeout ∧ config.timeout ≤ 30 then
      config.timeout else mistralDefaultTimeoutSeconds
  { config := config, client := { timeoutSeconds := timeout } }

/-- Go `getOpenAIContextWindow`: context window inferred from id substrings. -/
def getOpenAIContextWindow (modelID : String) : Int :=
  if goContains modelID "128k" then 128000
  else if goContains modelID "32k" then 32000
  else if goContains modelID "16k" then 16000
  else 4096

/-- Go `isVisionModel`: vision support inferred from id substrings. -/
def isVisionModel (modelID : String) : Bool :=
  goContains modelID "vision" || goContains modelID "gpt-4o" ||
    goContains modelID "turbo-vision"

/-- Go `getMistralContextWindow`: context window inferred from id substrings. -/
def getMistralContextWindow (modelID : String) : Int :=
  if goContains modelID "large" then 128000
  else if goContains modelID "8x22b" || goContains modelID "8x7b" ||
      goContains modelID "ministral-8b" then 32000
  else 32000

/-- Go `json.Unmarshal` of a JSON value into a Go `int`/`int64` field. -/
def decodeIntField : JSON → Except Unit Int
  | .num n => .ok n
  | .null => .ok 0
  | _ => .error ()

/-- One element of `DeepSeekModelsResponse.Data` after unmarshalling:
absent fields already hold their Go zero values. -/
structure DeepSeekModelEntry where
  id : String
  description : String
  contextWindow : Int
deriving Repr, DecidableEq

/-- Unmarshal one entry of the DeepSeek `data` array
(`{id, capabilities:{description, context_length}}`). -/
def decodeDeepSeekEntry : JSON → Except Unit DeepSeekModelEntry
  | .obj fields => do
      let id ← (match jsonLookup "id" fields with
        | some v => decodeStringField v
        | none => Except.ok "")
      match jsonLookup "capabilities" fields with
      | some (.obj cfields) => do
          let desc ← (match jsonLookup "description" cfields with
            | some v => decodeStringField v
            | none => Except.ok "")
          let cw ← (match jsonLookup "context_length" cfields with
            | some v => decodeIntField v
            | none => Except.ok 0)
          .ok ⟨id, desc, cw⟩
      | some .null => .ok ⟨id, "", 0⟩
      | some _ => .error ()
      | none => .ok ⟨id, "", 0⟩
  | .null => .ok ⟨"", "", 0⟩
  | _ => .error ()

/-- Unmarshal `DeepSeekModelsResponse` (`{data:[...]}`) . -/
def decodeDeepSeekModelsResponse : JSON → Except Unit (List DeepSeekModelEntry)
  | .obj fields =>
      match jsonLookup "data" fields with
      | some (.arr xs) => xs.mapM decodeDeepSeekEntry
      | some .null => .ok []
      | some _ => .error ()
      | none => .ok []
  | .null => .ok []
  | _ => .error ()

/-- The `DeepSeek.ListModels` per-entry mapping: fields are copied,
`SupportsVision` is always false. -/
def DeepSeek.mapModelEntry (e : DeepSeekModelEntry) : Model :=
  { id := e.id, description := e.description,
    contextWindow := e.contextWindow, supportsVision := false }

/-- Go `DeepSeek.ListModels` from a 200 response body: unmarshal, then map. -/
def DeepSeek.listModelsFromBody (body : JSON) : Except Unit (List Model) := do
  let entries ← decodeDeepSeekModelsResponse body
  .ok (entries.map DeepSeek.mapModelEntry)

/-- Go `OpenAIModel` after unmarshalling. -/
structure OpenAIModelEntry where
  id : String
  object : String
  created : Int
  ownedBy : String
  description : String
deriving Repr, DecidableEq

/-- Unmarshal one entry of the OpenAI `data` array. -/
def decodeOpenAIEntry : JSON → Except Unit OpenAIModelEntry
  | .obj fields => do
      let id ← (match jsonLookup "id" fields with
        | some v => decodeStringField v
        | none => Except.ok "")
      let object ← (match jsonLookup "object" fields with
        | some v => decodeStringField v
        | none => Except.ok "")
      let created ← (match jsonLookup "created" fields with
        | some v => decodeIntField v
        | none => Except.ok 0)
      let ownedBy ← (match jsonLookup "owned_by" fields with
        | some v => decodeStringField v
        | none => Except.ok "")
      let desc ← (match jsonLookup "description" fields with
        | some v => decodeStringField v
        | none => Except.ok "")
      .ok ⟨id, object, created, ownedBy, desc⟩
  | .null => .ok ⟨"", "", 0, "", ""⟩
  | _ => .error ()

/-- Unmarshal `OpenAIModelResponse` (`{object, data:[...]}`). -/
def decodeOpenAIModelsResponse : JSON → Except Unit (List OpenAIModelEntry)
  | .obj fields =>
      match jsonLookup "data" fields with
      | some (.arr xs) => xs.mapM decodeOpenAIEntry
      | some .null => .ok []
      | some _ => .error ()
      | none => .ok []
  | .null => .ok []
  | _ => .error ()

/-- The `OpenAI.ListModels` per-entry mapping: description is
`fmt.Sprintf("%s (%s)", id, ownedBy)`; context window and vision flag come
from the id heuristics. -/
def OpenAI.mapModelEntry (m : OpenAIModelEntry) : Model :=
  { id := m.id, description := m.id ++ " (" ++ m.ownedBy ++ ")",
    contextWindow := getOpenAIContextWindow m.id,
    supportsVision := isVisionModel m.id }

/-- Go `OpenAI.ListModels` from a 200 response body: unmarshal, then map. -/
def OpenAI.listModelsFromBody (body : JSON) : Except Unit (List Model) := do
  let entries ← decodeOpenAIModelsResponse body
  .ok (entries.map OpenAI.mapModelEntry)

/-- The `Mistral.ListModels` per-entry mapping (only the id is used). -/
def Mistral.mapModelEntry (id : String) : Model :=
  { id := id, description := "Mistral model: " ++ id,
    contextWindow := getMistralContextWindow id, supportsVision := false }

/-- One line printed to stdout by the CLI layer.  A `jsonLine` is a
marshalled JSON document; a `modelTable` is a `printProviderTable` call. -/
inductive PrintedLine where
  | jsonLine (j : JSON)
  | textLine (s : String)
  | modelTable (provider : String) (models : List Model)

/-- Go `CLIOutput` from `cmd/generate.go`. -/
structure CLIOutput where
  success : Bool
  content : String
  error : String
  warnings : List String
deriving Repr, DecidableEq

/-- Go `json.Marshal` of `CLIOutput`, with the `omitempty` fields dropped when
they hold their zero value. -/
def CLIOutput.toJSON (o : CLIOutput) : JSON :=
  .obj ([("success", .bool o.success)]
    ++ (if o.content ≠ "" then [("content", .str o.content)] else [])
    ++ (if o.error ≠ "" then [("error", .str o.error)] else [])
    ++ (if o.warnings ≠ [] then [("warnings", .arr (o.warnings.map JSON.str))] else []))

/-- Go `formatOutput` from `cmd/generate.go`: returns the lines printed and the
error value returned to cobra (the process exits non-zero exactly when this
is `some`).  Go errors are carried as their message strings. -/
def formatOutput (jsonFlag : Bool) (content : String) (err : Option String)
    (warnings : List String) : List PrintedLine × Option String :=
  if jsonFlag then
    let output : CLIOutput :=
      { success := err.isNone, content := content,
        error := (match err with | some e => e | none => ""), warnings := warnings }
    ([.jsonLine output.toJSON], none)
  else
    match err with
    | some e => ([], some e)
    | none => ([.textLine content], none)

/-- Go `getAPIKeyForProvider` from the models command; `env` is `os.Getenv`
(returning `""` for unset variables). -/
def getAPIKeyForProvider (env : String → String) (provider : String) :
    Except String String :=
  if provider = "openai" then
    let key := env "OPENAI_API_KEY"
    if key = "" then .error "OPENAI_API_KEY not found in environment" else .ok key
  else if provider = "deepseek" then
    let key := env "DEEPSEEK_API_KEY"
    if key = "" then .error "DEEPSEEK_API_KEY not found in environment" else .ok key
  else .error "unsupported provider"

/-- Which lister `getModelLister` constructs. -/
inductive ListerTag where
  | openai
  | deepseek
deriving Repr, DecidableEq

/-- Go `getModelLister` from the models command. -/
def getModelLister (provider : String) : Except String ListerTag :=
  if provider = "openai" then .ok .openai
  else if provider = "deepseek" then .ok .deepseek
  else .error "unsupported provider"

/-- What one iteration of the models command's provider loop adds to the
accumulated `(errs, providerModels)` pair.  `listModels` abstracts the
network call made by the constructed lister with the resolved key. -/
def modelsCmdStep (env : String → String)
    (listModels : ListerTag → String → Except String (List Model))
    (acc : List String × List (String × List Model)) (provider : String) :
    List String × List (String × List Model) :=
  let provider := provider.toLower
  match getAPIKeyForProvider env provider with
  | .error e => (acc.1 ++ [provider ++ ": " ++ e], acc.2)
  | .ok key =>
      match getModelLister provider with
      | .error e => (acc.1 ++ [provider ++ ": " ++ e], acc.2)
      | .ok tag =>
          match listModels tag key with
          | .error e => (acc.1 ++ [provider ++ ": " ++ e], acc.2)
          | .ok models => (acc.1, acc.2 ++ [(provider, models)])

/-- Observable behaviour of one run of the models command. -/
structure ModelsCmdOutcome where
  loggedErrors : List String
  printed : List PrintedLine
  returned : Option String

/-- Go `Model` as marshalled by `json.MarshalIndent`. -/
def Model.toJSON (m : Model) : JSON :=
  .obj [("id", .str m.id), ("description", .str m.description),
        ("context_window", .num m.contextWindow),
        ("supports_vision", .bool m.supportsVision)]

/-- The `RunE` body of the models command: default provider list, per-
provider loop collecting errors and models, error logging, output, and an
unconditional `return nil`. -/
def modelsCmdRun (requested : List String) (jsonFlag : Bool) (env : String → String)
    (listModels : ListerTag → String → Except String (List Model)) : ModelsCmdOutcome :=
  let providersList := if requested.isEmpty then ["openai", "deepseek"] else requested
  let state := providersList.foldl (modelsCmdStep env listModels) ([], [])
  let printed :=
    if jsonFlag then
      [PrintedLine.jsonLine (.obj (state.2.map
        (fun pm => (pm.1, JSON.arr (pm.2.map Model.toJSON)))))]
    else
      state.2.map (fun pm => PrintedLine.modelTable pm.1 pm.2)
  { loggedErrors := state.1.map (fun e => "Error: " ++ e), printed := printed,
    returned := none }

/-- The mock success body `{"choices":[{"message":{"content":"hello"}}]}`. -/
def helloBody : JSON :=
  .obj [("choices", .arr [.obj [("message", .obj [("content", .str "hello")])]])]

/-- The zero-choices body `{"choices":[]}`. -/
def emptyChoicesBody : JSON := .obj [("choices", .arr [])]

/-- A single-shot request issues exactly one HTTP request, whatever the
transport does. -/
theorem singleRequest_sends_one (decodeEnv : JSON → Option String) (payload : JSON)
    (tr : Nat → HTTPOutcome) : (singleRequest decodeEnv payload tr).requestsSent = [payload] := by
  unfold singleRequest
  repeat' split
  all_goals rfl

/-- C1: a provider with `Supports(Vision) = false` (DeepSeek, Mistral)
rejects any non-empty image list with a capability error and issues zero
HTTP requests. -/
theorem C1_capability_gate_no_network (cfg : Config) (tr : Nat → HTTPOutcome)
    (p : String) (img : FileInput) (imgs : List FileInput) :
    DeepSeek.Supports Feature.Vision = false ∧
    Mistral.Supports Feature.Vision = false ∧
    (DeepSeek.Generate cfg tr ⟨p, img :: imgs⟩).result
      = .error (.capability "DeepSeek does not support image analysis") ∧
    (DeepSeek.Generate cfg tr ⟨p, img :: imgs⟩).requestsSent = [] ∧
    (Mistral.Generate cfg tr ⟨p, img :: imgs⟩).result
      = .error (.capability "Mistral does not support image analysis") ∧
    (Mistral.Generate cfg tr ⟨p, img :: imgs⟩).requestsSent = [] := by
  refine ⟨rfl, rfl, ?_, ?_, ?_, ?_⟩ <;>
    simp [DeepSeek.Generate, Mistral.Generate]

/-- C4: on a 200 response decoding to
`{"choices":[{"message":{"content":"hello"}}]}` every provider's parser
yields `"hello"`; a 200 response with `{"choices":[]}` yields the
empty-result error for every provider. -/
theorem C4_choices_roundtrip (cfg : Config) (p : String) :
    (OpenAI.Generate cfg (fun _ => .ok 200 helloBody) ⟨p, []⟩).result = .ok "hello" ∧
    (DeepSeek.Generate cfg (fun _ => .ok 200 helloBody) ⟨p, []⟩).result = .ok "hello" ∧
    (Mistral.Generate cfg (fun _ => .ok 200 helloBody) ⟨p, []⟩).result = .ok "hello" ∧
    (OpenAI.Generate cfg (fun _ => .ok 200 emptyChoicesBody) ⟨p, []⟩).result
      = .error .emptyResult ∧
    (DeepSeek.Generate cfg (fun _ => .ok 200 emptyChoicesBody) ⟨p, []⟩).result
      = .error .emptyResult ∧
    (Mistral.Generate cfg (fun _ => .ok 200 emptyChoicesBody) ⟨p, []⟩).result
      = .error .emptyResult :=
  ⟨rfl, rfl, rfl, rfl, rfl, rfl⟩

/-- A non-200 response is terminal for the Mistral loop at any attempt:
one request, no sleep, an error result. -/
theorem mistral_attemptLoop_non200_terminal (cfg : Config) (tr : Nat → HTTPOutcome)
    (payload : JSON) (fuel attempt : Nat) (lastErr : Option GenError)
    (status : Nat) (body : JSON) (htr : tr attempt = .ok status body)
    (hs : status ≠ 200) :
    (Mistral.attemptLoop cfg tr payload (fuel + 1) attempt lastErr).requestsSent
        = [payload] ∧
    (Mistral.attemptLoop cfg tr payload (fuel + 1) attempt lastErr).sleeps = [] ∧
    ∃ e, (Mistral.attemptLoop cfg tr payload (fuel + 1) attempt lastErr).result
        = .error e := by
  unfold Mistral.attemptLoop
  rw [htr]
  dsimp only
  rw [if_pos hs]
  cases hd : decodeMessageEnvelope body with
  | none => exact ⟨rfl, rfl, _, rfl⟩
  | some m =>
      dsimp only
      by_cases hm : m ≠ ""
      · rw [if_pos hm]
        exact ⟨rfl, rfl, _, rfl⟩
      · rw [if_neg hm]
        exact ⟨rfl, rfl, _, rfl⟩

/-- C2: Mistral retries only on network-level failure, with at most
`mistralMaxRetries` = 2 attempts and one recorded fixed delay between them;
a transport failing once then succeeding yields the success after exactly
2 attempts, a transport that always fails yields the last transport error
after exactly 2 attempts, and a non-200 response is terminal after exactly
1 attempt. -/
theorem C2_mistral_retry_policy (cfg : Config) (p : String) (msgf : Nat → String)
    (status : Nat) (body : JSON) :
    ((Mistral.Generate cfg
        (fun n => if n = 1 then .netError (msgf 1) else .ok 200 helloBody)
        ⟨p, []⟩).result = .ok "hello" ∧
      (Mistral.Generate cfg
        (fun n => if n = 1 then .netError (msgf 1) else .ok 200 helloBody)
        ⟨p, []⟩).requestsSent.length = 2 ∧
      (Mistral.Generate cfg
        (fun n => if n = 1 then .netError (msgf 1) else .ok 200 helloBody)
        ⟨p, []⟩).sleeps = [mistralRetryDelaySeconds]) ∧
    ((Mistral.Generate cfg (fun n => .netError (msgf n)) ⟨p, []⟩).result
        = .error (.apiRequestFailed (msgf mistralMaxRetries)) ∧
      (Mistral.Generate cfg (fun n => .netError (msgf n)) ⟨p, []⟩).requestsSent.length
        = mistralMaxRetries ∧
      (Mistral.Generate cfg (fun n => .netError (msgf n)) ⟨p, []⟩).sleeps
        = [mistralRetryDelaySeconds]) ∧
    (status ≠ 200 →
      (Mistral.Generate cfg (fun _ => .ok status body) ⟨p, []⟩).requestsSent.length = 1 ∧
      (Mistral.Generate cfg (fun _ => .ok status body) ⟨p, []⟩).sleeps = [] ∧
      ∃ e, (Mistral.Generate cfg (fun _ => .ok status body) ⟨p, []⟩).result = .error e) := by
  refine ⟨⟨rfl, rfl, rfl⟩, ⟨rfl, rfl, rfl⟩, ?_⟩
  intro hs
  have h := mistral_attemptLoop_non200_terminal cfg (fun _ => .ok status body)
    (chatPayload (Mistral.getModel cfg) (.str p)) 1 1 none status body rfl hs
  exact ⟨by rw [show (Mistral.Generate cfg (fun _ => .ok status body) ⟨p, []⟩)
      = Mistral.attemptLoop cfg (fun _ => .ok status body)
        (chatPayload (Mistral.getModel cfg) (.str p)) 2 1 none from rfl, h.1]; rfl,
    by rw [show (Mistral.Generate cfg (fun _ => .ok status body) ⟨p, []⟩)
      = Mistral.attemptLoop cfg (fun _ => .ok status body)
        (chatPayload (Mistral.getModel cfg) (.str p)) 2 1 none from rfl]; exact h.2.1,
    by rw [show (Mistral.Generate cfg (fun _ => .ok status body) ⟨p, []⟩)
      = Mistral.attemptLoop cfg (fun _ => .ok status body)
        (chatPayload (Mistral.getModel cfg) (.str p)) 2 1 none from rfl]; exact h.2.2⟩

/-- Witness for C2 at a concrete 400 response. -/
theorem C2_mistral_retry_policy_witness :
    (400 : Nat) ≠ 200 ∧
    ((Mistral.Generate ⟨"k", 0, "", false⟩ (fun _ => .ok 400 (.obj []))
        ⟨"p", []⟩).requestsSent.length = 1 ∧
      (Mistral.Generate ⟨"k", 0, "", false⟩ (fun _ => .ok 400 (.obj []))
        ⟨"p", []⟩).sleeps = [] ∧
      ∃ e, (Mistral.Generate ⟨"k", 0, "", false⟩ (fun _ => .ok 400 (.obj []))
        ⟨"p", []⟩).result = .error e) :=
  ⟨by decide,
    (C2_mistral_retry_policy ⟨"k", 0, "", false⟩ "p" (fun _ => "m") 400 (.obj [])).2.2
      (by decide)⟩

/-- Go's `append`-in-a-loop over the images equals a map: the content list
is the text block followed by one image block per attachment, in order. -/
theorem visionContent_eq_cons_map (p : String) :
    ∀ (l : List FileInput) (init : List JSON),
      l.foldl (fun acc img => acc ++ [imageBlock img]) init = init ++ l.map imageBlock
  | [], init => by simp
  | x :: xs, init => by
      simp only [List.foldl_cons, List.map_cons]
      rw [visionContent_eq_cons_map p xs (init ++ [imageBlock x])]
      simp

/-- C3: for N ≥ 1 images, the OpenAI vision request body is a single user
message whose content is the text block followed by one image block per
attachment in order (N+1 blocks), each with a
`data:image/<mime>;base64,<payload>` URL; the model field is the fixed
vision constant, independent of the configured model; the mime is
png/jpeg/gif from the extension, jpeg otherwise. -/
theorem C3_openai_vision_request (cfg : Config) (tr : Nat → HTTPOutcome)
    (p : String) (img : FileInput) (imgs : List FileInput) :
    ((OpenAI.Generate cfg tr ⟨p, img :: imgs⟩).requestsSent =
      [JSON.obj [("model", .str "gpt-4o-mini"),
        ("messages", .arr [.obj [("role", .str "user"),
          ("content", .arr (textBlock p :: (img :: imgs).map (fun im =>
            JSON.obj [("type", .str "image_url"),
              ("image_url", .obj [("url", .str ("data:image/" ++
                getMimeType im.filename ++ ";base64," ++
                base64Encode im.data))])])))]]),
        ("max_tokens", .num 1000)]]) ∧
    (visionContent ⟨p, img :: imgs⟩).length = (img :: imgs).length + 1 ∧
    getMimeType "a.png" = "png" ∧ getMimeType "a.jpg" = "jpeg" ∧
    getMimeType "a.jpeg" = "jpeg" ∧ getMimeType "a.gif" = "gif" ∧
    (∀ f : String, filepathExt f ≠ ".png" → filepathExt f ≠ ".jpg" →
      filepathExt f ≠ ".jpeg" → filepathExt f ≠ ".gif" → getMimeType f = "jpeg") := by
  have hvc : visionContent ⟨p, img :: imgs⟩ = textBlock p :: (img :: imgs).map imageBlock := by
    unfold visionContent
    rw [visionContent_eq_cons_map p (img :: imgs) [textBlock p]]
    simp
  refine ⟨?_, ?_, rfl, rfl, rfl, rfl, ?_⟩
  · have h1 : (OpenAI.Generate cfg tr ⟨p, img :: imgs⟩).requestsSent =
        [OpenAI.visionPayload ⟨p, img :: imgs⟩] := by
      unfold OpenAI.Generate
      rw [if_pos (by simp)]
      exact singleRequest_sends_one _ _ _
    rw [h1]
    unfold OpenAI.visionPayload chatPayload
    rw [hvc]
    rfl
  · rw [hvc]
    simp
  · intro f h1 h2 h3 h4
    unfold getMimeType
    rw [if_neg h1, if_neg (by simp [h2, h3]), if_neg h4]

/-- Witness for C3's default-mime branch at a concrete filename. -/
theorem C3_openai_vision_request_witness :
    getMimeType "a.bmp" = "jpeg" :=
  (C3_openai_vision_request ⟨"k", 0, "", false⟩ (fun _ => .netError "e") "p"
    ⟨[1], "a.bmp"⟩ []).2.2.2.2.2.2 "a.bmp" (by decide) (by decide) (by decide) (by decide)

/-- A DeepSeek models-response entry whose `capabilities` object carries
neither `description` nor `context_length`:
`{"data":[{"id":"deepseek-chat","capabilities":{}}]}`. -/
def deepseekAbsentFieldsBody : JSON :=
  .obj [("data", .arr [.obj [("id", .str "deepseek-chat"),
    ("capabilities", .obj [])]])]

/-- C5 counterexample: with the context-window and description fields
absent, DeepSeek's mapping succeeds but produces the zero values
`ContextWindow = 0` and `Description = ""`, not sensible non-zero
defaults. -/
theorem C5_deepseek_zero_defaults_cex :
    DeepSeek.listModelsFromBody deepseekAbsentFieldsBody =
      .ok [{ id := "deepseek-chat", description := "", contextWindow := 0,
              supportsVision := false }] ∧
    (Model.mk "deepseek-chat" "" 0 false).contextWindow = 0 ∧
    (Model.mk "deepseek-chat" "" 0 false).description = "" :=
  ⟨rfl, rfl, rfl⟩

/-- C5 amended: absent provider fields never fail the mapping; OpenAI and
Mistral derive context window and description from the model id (always
non-zero / non-empty), while DeepSeek copies the decoded fields, so absent
fields yield the Go zero values 0 and "". -/
theorem C5_listmodels_absent_fields_amended :
    DeepSeek.listModelsFromBody deepseekAbsentFieldsBody =
      .ok [{ id := "deepseek-chat", description := "", contextWindow := 0,
              supportsVision := false }] ∧
    (∀ e : OpenAIModelEntry, (OpenAI.mapModelEntry e).contextWindow ≠ 0 ∧
      (OpenAI.mapModelEntry e).description ≠ "") ∧
    (∀ s : String, (Mistral.mapModelEntry s).contextWindow ≠ 0 ∧
      (Mistral.mapModelEntry s).description ≠ "") := by
  refine ⟨rfl, ?_, ?_⟩
  · intro e
    constructor
    · show getOpenAIContextWindow e.id ≠ 0
      unfold getOpenAIContextWindow
      repeat' split
      all_goals decide
    · show e.id ++ " (" ++ e.ownedBy ++ ")" ≠ ""
      intro h
      have hl := congrArg String.length h
      rw [String.length_append, String.length_append, String.length_append] at hl
      have h2 : (" (" : String).length = 2 := rfl
      have h3 : (")" : String).length = 1 := rfl
      have h0 : ("" : String).length = 0 := rfl
      omega
  · intro s
    constructor
    · show getMistralContextWindow s ≠ 0
      unfold getMistralContextWindow
      repeat' split
      all_goals decide
    · show "Mistral model: " ++ s ≠ ""
      intro h
      have hl := congrArg String.length h
      rw [String.length_append] at hl
      have h2 : ("Mistral model: " : String).length = 15 := rfl
      have h0 : ("" : String).length = 0 := rfl
      omega

/-- C6 counterexample: with a configured timeout of 5 seconds, the OpenAI
(and DeepSeek) constructor still builds its HTTP client with the 30-second
default, so the client timeout does not equal the configured timeout. -/
theorem C6_client_timeout_cex :
    (NewOpenAI ⟨"k", 5, "", false⟩).client.timeoutSeconds = 30 ∧
    (NewDeepSeek ⟨"k", 5, "", false⟩).client.timeoutSeconds = 30 ∧
    ¬ (NewOpenAI ⟨"k", 5, "", false⟩).client.timeoutSeconds = 5 :=
  ⟨rfl, rfl, by decide⟩

/-- C6 amended: the OpenAI and DeepSeek HTTP clients always get the
30-second default regardless of `Config.Timeout` (only the stored config
field is defaulted); Mistral's client uses the configured timeout exactly
when it lies in (0, 30], and the default otherwise. -/
theorem C6_client_timeout_amended (cfg : Config) :
    (NewOpenAI cfg).client.timeoutSeconds = openAIDefaultTimeoutSeconds ∧
    (NewDeepSeek cfg).client.timeoutSeconds = deepseekDefaultTimeoutSeconds ∧
    (NewOpenAI cfg).config.timeout =
      (if cfg.timeout = 0 then openAIDefaultTimeoutSeconds else cfg.timeout) ∧
    (0 < cfg.timeout → cfg.timeout ≤ 30 →
      (NewMistral cfg).client.timeoutSeconds = cfg.timeout) ∧
    (¬ (0 < cfg.timeout ∧ cfg.timeout ≤ 30) →
      (NewMistral cfg).client.timeoutSeconds = mistralDefaultTimeoutSeconds) := by
  refine ⟨rfl, rfl, ?_, ?_, ?_⟩
  · by_cases h : cfg.timeout = 0 <;> simp [NewOpenAI, h]
  · intro h1 h2
    show (if 0 < cfg.timeout ∧ cfg.timeout ≤ 30 then cfg.timeout
      else mistralDefaultTimeoutSeconds) = cfg.timeout
    rw [if_pos ⟨h1, h2⟩]
  · intro h
    show (if 0 < cfg.timeout ∧ cfg.timeout ≤ 30 then cfg.timeout
      else mistralDefaultTimeoutSeconds) = mistralDefaultTimeoutSeconds
    rw [if_neg h]

/-- Witness for C6's amended Mistral branches at concrete timeouts. -/
theorem C6_client_timeout_amended_witness :
    (NewMistral ⟨"k", 7, "", false⟩).client.timeoutSeconds = 7 ∧
    (NewMistral ⟨"k", 99, "", false⟩).client.timeoutSeconds = mistralDefaultTimeoutSeconds :=
  ⟨(C6_client_timeout_amended ⟨"k", 7, "", false⟩).2.2.2.1 (by decide) (by decide),
   (C6_client_timeout_amended ⟨"k", 99, "", false⟩).2.2.2.2 (by decide)⟩

/-- An 8-character key consisting of a 2-character prefix and 6 dots: its
mask is the same prefix followed by 9 dots, which contains the key. -/
def mistralLeakKey : String := "ab......"

/-- C7 counterexample: running Mistral `Generate` in debug mode with the
key `"ab......"` emits a first trace line whose text contains the API key
in full (the key is a substring of the rendered line), because
`maskAPIKey` shows the first four and last four characters and an
8-character key is shown whole. -/
theorem C7_debug_key_leak_cex :
    (Mistral.Generate ⟨mistralLeakKey, 0, "", true⟩ (fun _ => .ok 400 (.obj []))
        ⟨"p", []⟩).debugLog.head? =
      some (.sending 1 (mistralBaseURL ++ "/chat/completions") mistralDefaultModel
        (maskAPIKey mistralLeakKey)) ∧
    mistralLeakKey.toList <:+: (sendingLineText 1 (mistralBaseURL ++ "/chat/completions")
      mistralDefaultModel (maskAPIKey mistralLeakKey)).toList := by
  refine ⟨rfl, ?_⟩
  set_option maxRecDepth 4000 in decide

/-- C7 amended: keys shorter than 8 characters are logged as `"****"`;
for keys of length at least 9 containing no '.' character the logged value
(the mask) never contains the key in full: at least part is omitted.
Length-8 keys are shown whole (first four + "..." + last four covers all
eight characters), which is what the counterexample exploits. -/
theorem C7_maskAPIKey_amended (key : String) :
    (key.length < 8 → maskAPIKey key = "****") ∧
    (9 ≤ key.length → '.' ∉ key.toList →
      ¬ key.toList <:+: (maskAPIKey key).toList) := by
  constructor
  · intro h
    unfold maskAPIKey
    rw [if_pos h]
  · intro h9 hnd hinf
    have hlen : key.length = key.toList.length := rfl
    have h8 : ¬ key.length < 8 := by omega
    have h4 : 4 ≤ key.toList.length := by omega
    have hm : (maskAPIKey key).toList =
        key.toList.take 4 ++ ("...").toList ++ key.toList.drop (key.length - 4) := by
      unfold maskAPIKey
      rw [if_neg h8]
      rfl
    have hc0 : key.toList.count '.' = 0 := List.count_eq_zero.mpr hnd
    have hct : (key.toList.take 4).count '.' = 0 := by
      have hsub := List.Sublist.count_le (List.take_sublist 4 key.toList) '.'
      omega
    have hcd : (key.toList.drop (key.length - 4)).count '.' = 0 := by
      have hsub := List.Sublist.count_le (List.drop_sublist (key.length - 4) key.toList) '.'
      omega
    have hcm : ((maskAPIKey key).toList).count '.' = 3 := by
      rw [hm, List.count_append, List.count_append, hct, hcd]
      decide
    have hml : (maskAPIKey key).toList.length = 11 := by
      rw [hm, List.length_append, List.length_append, List.length_take,
        List.length_drop, Nat.min_eq_left h4]
      have h3 : ("..." : String).toList.length = 3 := rfl
      omega
    obtain ⟨s, t, hst⟩ := hinf
    have hstl := congrArg List.length hst
    rw [List.length_append, List.length_append, hml] at hstl
    have hle : s.length + t.length ≤ 2 := by omega
    have hcnt := congrArg (fun l => List.count '.' l) hst
    simp only [List.count_append, hcm, hc0] at hcnt
    have hs1 : s.count '.' ≤ s.length := List.count_le_length '.' s
    have ht1 : t.count '.' ≤ t.length := List.count_le_length '.' t
    omega

/-- Witness for C7's amended statement at concrete keys. -/
theorem C7_maskAPIKey_amended_witness :
    maskAPIKey "abc" = "****" ∧
    ¬ ("abcdefghi").toList <:+: (maskAPIKey "abcdefghi").toList :=
  ⟨(C7_maskAPIKey_amended "abc").1 (by decide),
   (C7_maskAPIKey_amended "abcdefghi").2 (by decide) (by decide)⟩

/-- C8: `"gpt-4o-mini-128k"` maps to context window 128000 with vision true;
in general the context window follows the 128k/32k/16k substring checks in
switch order with default 4096, vision holds exactly when the id contains
"vision", "gpt-4o" or "turbo-vision"; and a DeepSeek entry with
`capabilities.context_length = 64000` maps to `ContextWindow = 64000` and
`SupportsVision = false`. -/
theorem C8_model_listing_heuristics :
    getOpenAIContextWindow "gpt-4o-mini-128k" = 128000 ∧
    isVisionModel "gpt-4o-mini-128k" = true ∧
    (∀ id : String, isVisionModel id = true ↔
      ("vision").toList <:+: id.toList ∨ ("gpt-4o").toList <:+: id.toList ∨
        ("turbo-vision").toList <:+: id.toList) ∧
    (∀ id : String, ("128k").toList <:+: id.toList →
      getOpenAIContextWindow id = 128000) ∧
    (∀ id : String, ¬ ("128k").toList <:+: id.toList →
      ("32k").toList <:+: id.toList → getOpenAIContextWindow id = 32000) ∧
    (∀ id : String, ¬ ("128k").toList <:+: id.toList →
      ¬ ("32k").toList <:+: id.toList → ("16k").toList <:+: id.toList →
      getOpenAIContextWindow id = 16000) ∧
    (∀ id : String, ¬ ("128k").toList <:+: id.toList →
      ¬ ("32k").toList <:+: id.toList → ¬ ("16k").toList <:+: id.toList →
      getOpenAIContextWindow id = 4096) ∧
    (∀ (id desc : String) (cw : Int),
      DeepSeek.mapModelEntry ⟨id, desc, cw⟩ =
        { id := id, description := desc, contextWindow := cw, supportsVision := false }) ∧
    (DeepSeek.mapModelEntry ⟨"deepseek-chat", "d", 64000⟩).contextWindow = 64000 ∧
    (DeepSeek.mapModelEntry ⟨"deepseek-chat", "d", 64000⟩).supportsVision = false := by
  refine ⟨by decide, by decide, ?_, ?_, ?_, ?_, ?_, fun id desc cw => rfl, rfl, rfl⟩
  · intro id
    simp [isVisionModel, goContains, or_assoc]
  · intro id h
    have hb : goContains id "128k" = true := decide_eq_true h
    simp [getOpenAIContextWindow, hb]
  · intro id h1 h2
    have hb1 : goContains id "128k" = false := decide_eq_false h1
    have hb2 : goContains id "32k" = true := decide_eq_true h2
    simp [getOpenAIContextWindow, hb1, hb2]
  · intro id h1 h2 h3
    have hb1 : goContains id "128k" = false := decide_eq_false h1
    have hb2 : goContains id "32k" = false := decide_eq_false h2
    have hb3 : goContains id "16k" = true := decide_eq_true h3
    simp [getOpenAIContextWindow, hb1, hb2, hb3]
  · intro id h1 h2 h3
    have hb1 : goContains id "128k" = false := decide_eq_false h1
    have hb2 : goContains id "32k" = false := decide_eq_false h2
    have hb3 : goContains id "16k" = false := decide_eq_false h3
    simp [getOpenAIContextWindow, hb1, hb2, hb3]

/-- Witness for C8's guarded context-window cases at concrete ids. -/
theorem C8_model_listing_heuristics_witness :
    getOpenAIContextWindow "m-32k" = 32000 ∧ getOpenAIContextWindow "plain" = 4096 :=
  ⟨C8_model_listing_heuristics.2.2.2.2.1 "m-32k" (by decide) (by decide),
   C8_model_listing_heuristics.2.2.2.2.2.2.1 "plain" (by decide) (by decide) (by decide)⟩

/-- The Mistral retry loop's result, issued requests and sleeps do not
depend on the debug flag (only the trace lines do). -/
theorem mistral_attemptLoop_debug_irrelevant (cfg : Config) (b : Bool)
    (tr : Nat → HTTPOutcome) (payload : JSON) :
    ∀ (fuel attempt : Nat) (lastErr : Option GenError),
      (Mistral.attemptLoop { cfg with debug := b } tr payload fuel attempt lastErr).result =
        (Mistral.attemptLoop cfg tr payload fuel attempt lastErr).result ∧
      (Mistral.attemptLoop { cfg with debug := b } tr payload fuel attempt lastErr).requestsSent =
        (Mistral.attemptLoop cfg tr payload fuel attempt lastErr).requestsSent ∧
      (Mistral.attemptLoop { cfg with debug := b } tr payload fuel attempt lastErr).sleeps =
        (Mistral.attemptLoop cfg tr payload fuel attempt lastErr).sleeps := by
  intro fuel
  induction fuel with
  | zero =>
      intro attempt lastErr
      cases lastErr <;> exact ⟨rfl, rfl, rfl⟩
  | succ n ih =>
      intro attempt lastErr
      unfold Mistral.attemptLoop
      cases htr : tr attempt with
      | netError msg =>
          dsimp only
          by_cases hlt : attempt < mistralMaxRetries
          · rw [if_pos hlt, if_pos hlt]
            obtain ⟨h1, h2, h3⟩ := ih (attempt + 1) (some (.apiRequestFailed msg))
            exact ⟨h1, by dsimp only; rw [h2], by dsimp only; rw [h3]⟩
          · rw [if_neg hlt, if_neg hlt]
            exact ⟨rfl, rfl, rfl⟩
      | readError st msg => exact ⟨rfl, rfl, rfl⟩
      | ok status body =>
          dsimp only
          by_cases hs : status ≠ 200
          · rw [if_pos hs, if_pos hs]
            cases hd : decodeMessageEnvelope body with
            | none => exact ⟨rfl, rfl, rfl⟩
            | some m =>
                dsimp only
                by_cases hm : m ≠ ""
                · rw [if_pos hm, if_pos hm]
                  exact ⟨rfl, rfl, rfl⟩
                · rw [if_neg hm, if_neg hm]
                  exact ⟨rfl, rfl, rfl⟩
          · rw [if_neg hs, if_neg hs]
            cases decodeChoices body with
            | error e => exact ⟨rfl, rfl, rfl⟩
            | ok cs => cases cs <;> exact ⟨rfl, rfl, rfl⟩

/-- C9: the debug flag does not alter control flow — for every transport
and input, Mistral `Generate` returns the same result, issues the same
sequence of HTTP requests, and sleeps identically whatever the debug flag;
debug mode only adds trace output. -/
theorem C9_debug_flag_noninterference (cfg : Config) (b : Bool)
    (tr : Nat → HTTPOutcome) (inputs : Inputs) :
    (Mistral.Generate { cfg with debug := b } tr inputs).result =
      (Mistral.Generate cfg tr inputs).result ∧
    (Mistral.Generate { cfg with debug := b } tr inputs).requestsSent =
      (Mistral.Generate cfg tr inputs).requestsSent ∧
    (Mistral.Generate { cfg with debug := b } tr inputs).sleeps =
      (Mistral.Generate cfg tr inputs).sleeps := by
  unfold Mistral.Generate
  by_cases h : inputs.images.length > 0
  · rw [if_pos h, if_pos h]
    exact ⟨rfl, rfl, rfl⟩
  · rw [if_neg h, if_neg h]
    unfold Mistral.handleTextRequest
    have hmodel : Mistral.getModel { cfg with debug := b } = Mistral.getModel cfg := rfl
    rw [hmodel]
    exact mistral_attemptLoop_debug_irrelevant cfg b tr _ mistralMaxRetries 1 none

/-- With no API keys in the environment, each iteration of the models
command's provider loop records exactly one error and no models. -/
theorem modelsCmdStep_empty_env (lm : ListerTag → String → Except String (List Model))
    (acc : List String × List (String × List Model)) (p : String) :
    (modelsCmdStep (fun _ => "") lm acc p).1.length = acc.1.length + 1 ∧
    (modelsCmdStep (fun _ => "") lm acc p).2 = acc.2 := by
  by_cases h1 : p.toLower = "openai"
  · simp [modelsCmdStep, getAPIKeyForProvider, h1]
  · by_cases h2 : p.toLower = "deepseek"
    · simp [modelsCmdStep, getAPIKeyForProvider, h1, h2]
    · simp [modelsCmdStep, getAPIKeyForProvider, h1, h2]

/-- Folding the provider loop over any provider list with no API keys
collects one error per provider. -/
theorem modelsCmd_foldl_empty_env (lm : ListerTag → String → Except String (List Model)) :
    ∀ (ps : List String) (acc : List String × List (String × List Model)),
      (ps.foldl (modelsCmdStep (fun _ => "") lm) acc).1.length = acc.1.length + ps.length
  | [], acc => by simp
  | p :: ps, acc => by
      rw [List.foldl_cons, modelsCmd_foldl_empty_env lm ps _,
        (modelsCmdStep_empty_env lm acc p).1]
      simp
      omega

/-- C10: with JSON output selected, the generate command's formatter
returns nil for every (content, error) pair — a failure is reported only
inside the JSON envelope with `success = false` — and the models command
returns nil unconditionally, even when every requested provider fails
(here: no API keys, so each provider contributes one logged error). -/
theorem C10_json_mode_returns_nil :
    (∀ (content : String) (err : Option String) (warnings : List String),
      (formatOutput true content err warnings).2 = none) ∧
    (∀ (content e : String) (warnings : List String),
      (formatOutput true content (some e) warnings).1 =
        [.jsonLine (CLIOutput.toJSON
          { success := false, content := content, error := e, warnings := warnings })]) ∧
    (∀ (requested : List String) (jsonFlag : Bool) (env : String → String)
      (lm : ListerTag → String → Except String (List Model)),
      (modelsCmdRun requested jsonFlag env lm).returned = none) ∧
    (∀ (requested : List String) (jsonFlag : Bool)
      (lm : ListerTag → String → Except String (List Model)),
      (modelsCmdRun requested jsonFlag (fun _ => "") lm).loggedErrors.length =
        (if requested.isEmpty then ["openai", "deepseek"] else requested).length) := by
  refine ⟨fun content err warnings => rfl, fun content e warnings => rfl,
    fun requested jsonFlag env lm => rfl, ?_⟩
  intro requested jsonFlag lm
  unfold modelsCmdRun
  dsimp only
  rw [List.length_map, modelsCmd_foldl_empty_env lm _ ([], [])]
  simp

/-- Witness for C5's amended statement at concrete entries. -/
theorem C5_listmodels_absent_fields_amended_witness :
    (OpenAI.mapModelEntry ⟨"gpt-4", "model", 0, "openai", ""⟩).contextWindow ≠ 0 ∧
    (Mistral.mapModelEntry "mistral-large-latest").contextWindow ≠ 0 :=
  ⟨(C5_listmodels_absent_fields_amended.2.1 ⟨"gpt-4", "model", 0, "openai", ""⟩).1,
   (C5_listmodels_absent_fields_amended.2.2 "mistral-large-latest").1⟩
